import Mathlib

/-!
Verification of the ingestion-and-query core of the excel-db-analysis
repository (`src/app.go`, which contains two Go variants of the same
application: a paginated/transactional variant and a legacy variant).

The Go code is shallowly embedded: the SQLite engine, the file dialogs and
the spreadsheet codec are external collaborators and are modelled as
oracles/parameters; everything the Go functions themselves compute
(trimming, normalization, materialization, pagination arithmetic, padding,
transaction bookkeeping, cell addressing, session state) is translated
directly.
-/

set_option autoImplicit false

namespace ExcelDB

/-- A leaf database value as surfaced by Go's `database/sql` scan into
`interface{}`: a string, a raw byte sequence (carried here by its text
form, since the code only ever converts it with `string(b)`), an integer,
or SQL NULL (`nil`). -/
inductive GoValue where
  | str (s : String)
  | bytes (s : String)
  | int (n : Int)
  | null
deriving DecidableEq, Repr

/-- A materialized result row: Go's `map[string]interface{}` built by
inserting `columns[i] ↦ value` in column order (association list in
insertion order; lookup below mirrors Go-map last-write-wins). -/
abbrev Row := List (String × GoValue)

/-- Go map indexing `row[col]`: the last value written for the key wins;
a missing key yields the zero value of `interface{}`, i.e. `nil`. -/
def mapGet (row : Row) (k : String) : GoValue :=
  match row.reverse.find? (fun p => p.1 = k) with
  | some p => p.2
  | none => GoValue.null

/-- Value normalization in `ExecuteSQLWithPage` (src/app.go lines 218-225):
`[]byte` becomes `string(b)`, `nil` becomes `""`, anything else is passed
through. -/
def pageNormalize : GoValue → GoValue
  | .bytes b => .str b
  | .null => .str ""
  | v => v

/-- Value normalization in `ExportExcelBySQL` (src/app.go lines 304-311):
textually the same rule as `pageNormalize`. -/
def exportNormalize : GoValue → GoValue
  | .bytes b => .str b
  | .null => .str ""
  | v => v

/-- Value normalization in the legacy variant's `ExecuteSQL`
(src/app.go lines 544-549): `[]byte` becomes `string(b)`, everything
else — including `nil` — is passed through unchanged. -/
def execNormalizeV2 : GoValue → GoValue
  | .bytes b => .str b
  | v => v

/-- Row materialization of the paginated path: `row[col] = normalize(values[i])`
iterating the columns in order. -/
def materializeRowPage (columns : List String) (vals : List GoValue) : Row :=
  (columns.zip vals).map (fun p => (p.1, pageNormalize p.2))

/-- Row materialization of the export path (same loop, written at its own
source location). -/
def materializeRowExport (columns : List String) (vals : List GoValue) : Row :=
  (columns.zip vals).map (fun p => (p.1, exportNormalize p.2))

/-- Row materialization of the legacy `ExecuteSQL`. -/
def materializeRowV2 (columns : List String) (vals : List GoValue) : Row :=
  (columns.zip vals).map (fun p => (p.1, execNormalizeV2 p.2))

/-- What the SQLite engine hands back for a successful query: ordered
column names and raw (pre-normalization) rows, each row scanned into
`len(columns)` values. -/
structure EngineResult where
  columns : List String
  rows : List (List GoValue)
deriving DecidableEq, Repr

/-- The store engine as an external collaborator: a query string either
fails (covering `db.Query`, `rows.Columns`, `rows.Scan` and `rows.Err`
failures) or yields an `EngineResult`. -/
abbrev Engine := String → Except String EngineResult

/-- Materialization of a full engine result in the paginated path. -/
def pageMaterializeRows (er : EngineResult) : List Row :=
  er.rows.map (materializeRowPage er.columns)

/-- Materialization of a full engine result in the export path. -/
def exportMaterializeRows (er : EngineResult) : List Row :=
  er.rows.map (materializeRowExport er.columns)

/-- `strings.TrimSpace`: strip leading and trailing whitespace (executable
model over the character list, so that witnesses can be checked by the
kernel). -/
def goTrim (s : String) : String :=
  String.mk (((s.data.dropWhile Char.isWhitespace).reverse.dropWhile
    Char.isWhitespace).reverse)

/-- Go integer division truncates toward zero (`Int.div`); the caller
guards against a zero divisor, which panics in Go. -/
def goDiv (a b : Int) : Int := Int.tdiv a b

/-- Go slice expression `l[lo:hi]`: defined when `0 ≤ lo ≤ hi ≤ len(l)`,
otherwise a runtime panic (`none`). -/
def goSlice {α : Type} (l : List α) (lo hi : Int) : Option (List α) :=
  if 0 ≤ lo ∧ lo ≤ hi ∧ hi ≤ (l.length : Int) then
    some ((l.drop lo.toNat).take (hi - lo).toNat)
  else none

/-- The fields of the paginated variant's `App` struct that the embedded
operations read or write (`ctx` and the `*sql.DB` handle are abstracted:
`dbOk` stands for `a.db != nil`). -/
structure App where
  dbOk : Bool
  currentPage : Int
  currentPageSize : Int
  currentSQL : String
deriving DecidableEq, Repr

/-- Outcome of `ExecuteSQLWithPage`: the `map[string]interface{}` it
returns either carries only an `error` key, or the full page payload;
`panic` marks a Go runtime panic (integer division by zero or a slice
bounds violation), which is not a returned value at all. -/
inductive PageOutcome where
  | error (msg : String)
  | panic
  | ok (columns : List String) (data : List Row) (total : Nat)
      (totalPages : Int) (currentPage : Int) (pageSize : Int) (message : String)
deriving DecidableEq, Repr

/-- Result of one call to `ExecuteSQLWithPage`: the updated `App` state,
the returned map (or panic), and whether `a.db.Query` was reached. -/
structure PageCall where
  app : App
  outcome : PageOutcome
  engineCalled : Bool
deriving DecidableEq, Repr

/-- The human-readable summary built at src/app.go line 257. -/
def pageMessage (total : Nat) (pageNum totalPages : Int) : String :=
  "查询到 " ++ toString total ++ " 条记录，当前第 " ++ toString pageNum ++
    " 页（共 " ++ toString totalPages ++ " 页）"

/-- `ExecuteSQLWithPage` (src/app.go lines 167-259): validate, record the
session state, run the query, materialize all rows, then slice the page
in memory. -/
def ExecuteSQLWithPage (a : App) (eng : Engine) (sqlStr0 : String)
    (pageNum pageSize : Int) : PageCall :=
  if a.dbOk = false then
    { app := a, outcome := .error ("错误：数据库连接未初始化，请重启应用！"), engineCalled := false }
  else
    let sqlStr := goTrim sqlStr0
    if sqlStr = "" then
      { app := a, outcome := .error ("请输入 SQL 语句"), engineCalled := false }
    else
      let a1 : App := { a with currentSQL := sqlStr, currentPage := pageNum,
                               currentPageSize := pageSize }
      match eng sqlStr with
      | .error e =>
          { app := a1, outcome := .error ("SQL 执行失败: " ++ e), engineCalled := true }
      | .ok er =>
          let columns := er.columns
          let fullData := pageMaterializeRows er
          let total : Int := fullData.length
          if pageSize = 0 then
            { app := a1, outcome := .panic, engineCalled := true }
          else
            let totalPages := goDiv (total + pageSize - 1) pageSize
            let start := (pageNum - 1) * pageSize
            let endIdx := if start + pageSize > total then total else start + pageSize
            if start < total then
              match goSlice fullData start endIdx with
              | none => { app := a1, outcome := .panic, engineCalled := true }
              | some pageData =>
                  { app := a1,
                    outcome := .ok columns pageData total.toNat totalPages pageNum
                      pageSize (pageMessage total.toNat pageNum totalPages),
                    engineCalled := true }
            else
              { app := a1,
                outcome := .ok columns [] total.toNat totalPages pageNum
                  pageSize (pageMessage total.toNat pageNum totalPages),
                engineCalled := true }

/-- `GetCurrentSQL` (src/app.go lines 370-372): a pure read of the session
state; returns the unchanged `App` alongside to make its frame explicit. -/
def GetCurrentSQL (a : App) : App × String := (a, a.currentSQL)

/-! ## Import path (OpenExcel, both variants) -/

/-- One sheet as delivered by the grid adapter (`f.GetRows`): a list of
rows of string cells; row 0 is the header. -/
abbrev SheetRows := List (List String)

/-- The SQLite store, abstracted to named tables of string-tuple rows. -/
abbrev DB := List (String × List (List String))

/-- `DROP TABLE IF EXISTS t`. -/
def dbDrop : DB → String → DB
  | [], _ => []
  | (s, rows) :: rest, t =>
      if s = t then dbDrop rest t else (s, rows) :: dbDrop rest t

/-- `CREATE TABLE t (...)` right after a successful drop: a fresh empty
table. -/
def dbCreate (db : DB) (t : String) : DB := dbDrop db t ++ [(t, [])]

/-- Contents of table `t`, `none` when the table does not exist. -/
def dbLookup : DB → String → Option (List (List String))
  | [], _ => none
  | (s, rows) :: rest, t => if s = t then some rows else dbLookup rest t

/-- Replace the row list of table `t` (commit of a batch of inserts). -/
def dbSetRows : DB → String → List (List String) → DB
  | [], _, _ => []
  | (s, rows0) :: rest, t, rows =>
      if s = t then (t, rows) :: dbSetRows rest t rows
      else (s, rows0) :: dbSetRows rest t rows

/-- The SQLite engine's possible reactions to the import path's statements,
as an oracle: which DDL statements succeed, whether `Begin`/`Prepare`/
`Commit` succeed, and which `(table, values)` inserts succeed. -/
structure Oracle where
  dropOk : String → Bool
  createOk : String → Bool
  beginOk : Bool
  prepareOk : String → Bool
  insertOk : String → List String → Bool
  commitOk : Bool

/-- The padding loop of both variants (src/app.go lines 140-142 and
476-478): `for len(row) < colCount { row = append(row, "") }`. -/
def padRow (row : List String) (colCount : Nat) : List String :=
  row ++ List.replicate (colCount - row.length) ""

/-- The values actually bound to the insert (lines 144-147 and 480-485):
`values[i] = row[i]` for `i < colCount` after padding, so exactly
`colCount` values, excess cells of wider rows never read. -/
def insertValues (row : List String) (colCount : Nat) : List String :=
  (padRow row colCount).take colCount

/-- Sheet-level failures of the paginated variant's `OpenExcel`, one per
`return` site; `insertRow i` carries the loop index `rowIdx` formatted
into "插入第 %d 行数据失败" (rows[0] is the header, so `i` is 1-based in
the data rows). -/
inductive ImpErr where
  | readSheet (name : String)
  | dropT (t : String)
  | createT (t : String)
  | beginTx
  | prepareS
  | insertRow (rowIdx : Nat)
  | commitTx
deriving DecidableEq, Repr

/-- The insert loop of the paginated variant (src/app.go lines 138-154),
inside the transaction: rows buffered until commit; the first failing
insert aborts with its `rowIdx` (counting from 1 at the first data row). -/
def loadLoop (insOk : List String → Bool) (colCount : Nat) :
    Nat → List (List String) → Except Nat (List (List String))
  | _, [] => .ok []
  | rowIdx, r :: rs =>
    let vals := insertValues r colCount
    if insOk vals then
      match loadLoop insOk colCount (rowIdx + 1) rs with
      | .ok rest => .ok (vals :: rest)
      | .error i => .error i
    else .error rowIdx

/-- The per-sheet loop of the paginated variant's `OpenExcel`
(src/app.go lines 86-160): skip empty sheets, drop/create the table,
begin a transaction, prepare the insert, insert all data rows, commit;
any failure returns immediately (later sheets not attempted). The
accumulator pair is `(sheetIdx, successCount)`. -/
def importSheets (orc : Oracle) : DB → Nat → Nat → List SheetRows → DB × Except ImpErr Nat
  | db, _, sc, [] => (db, .ok sc)
  | db, sheetIdx, sc, rows :: rest =>
    let tableName := "sheet" ++ toString (sheetIdx + 1)
    match rows with
    | [] => importSheets orc db (sheetIdx + 1) sc rest
    | header :: dataRows =>
      if orc.dropOk tableName = false then (db, .error (.dropT tableName)) else
      let db1 := dbDrop db tableName
      let colCount := header.length
      if orc.createOk tableName = false then (db1, .error (.createT tableName)) else
      let db2 := dbCreate db1 tableName
      if orc.beginOk = false then (db2, .error .beginTx) else
      if orc.prepareOk tableName = false then (db2, .error .prepareS) else
      match loadLoop (orc.insertOk tableName) colCount 1 dataRows with
      | .error i => (db2, .error (.insertRow i))
      | .ok inserted =>
        if orc.commitOk = false then (db2, .error .commitTx) else
        importSheets orc (dbSetRows db2 tableName inserted) (sheetIdx + 1) (sc + 1) rest

/-- `OpenExcel`, paginated variant, after file choice and parse: on
success the status message reports `(successCount, len(sheets))`
("成功导入 %d 个 Sheet 到数据库（共 %d 个 Sheet）"). -/
def openExcelV1 (orc : Oracle) (db : DB) (sheets : List SheetRows) :
    DB × Except ImpErr (Nat × Nat) :=
  match importSheets orc db 0 0 sheets with
  | (db1, .ok sc) => (db1, .ok (sc, sheets.length))
  | (db1, .error e) => (db1, .error e)

/-- Sheet-level failures of the legacy variant's `OpenExcel`; its insert
failure message ("插入数据失败: %v", line 495) carries no row index. -/
inductive ImpErr2 where
  | dropT (t : String)
  | createT (t : String)
  | insertFailed
deriving DecidableEq, Repr

/-- The insert loop of the legacy variant (src/app.go lines 474-497): each
row is inserted with its own autocommitted `db.Exec`; a failure returns
immediately, leaving the rows already inserted in the table. Returns the
rows that made it in, and whether the loop completed. -/
def loadLoopNoTx (insOk : List String → Bool) (colCount : Nat) :
    List (List String) → List (List String) × Bool
  | [] => ([], true)
  | r :: rs =>
    let vals := insertValues r colCount
    if insOk vals then
      let res := loadLoopNoTx insOk colCount rs
      (vals :: res.1, res.2)
    else ([], false)

/-- The per-sheet loop of the legacy variant's `OpenExcel`
(src/app.go lines 438-498): no transaction around the inserts. -/
def importSheetsV2 (orc : Oracle) : DB → Nat → List SheetRows → DB × Except ImpErr2 Unit
  | db, _, [] => (db, .ok ())
  | db, sheetIdx, rows :: rest =>
    let tableName := "sheet" ++ toString (sheetIdx + 1)
    match rows with
    | [] => importSheetsV2 orc db (sheetIdx + 1) rest
    | header :: dataRows =>
      if orc.dropOk tableName = false then (db, .error (.dropT tableName)) else
      let db1 := dbDrop db tableName
      let colCount := header.length
      if orc.createOk tableName = false then (db1, .error (.createT tableName)) else
      let db2 := dbCreate db1 tableName
      let res := loadLoopNoTx (orc.insertOk tableName) colCount dataRows
      let db3 := dbSetRows db2 tableName res.1
      if res.2 = false then (db3, .error .insertFailed)
      else importSheetsV2 orc db3 (sheetIdx + 1) rest

/-- `OpenExcel`, legacy variant: its success message ("成功导入 %d 个
Sheet 到数据库", line 500) reports `len(sheets)`, not the number of
sheets actually loaded. -/
def openExcelV2 (orc : Oracle) (db : DB) (sheets : List SheetRows) :
    DB × Except ImpErr2 Nat :=
  match importSheetsV2 orc db 0 sheets with
  | (db1, .ok _) => (db1, .ok sheets.length)
  | (db1, .error e) => (db1, .error e)

/-- Number of sheets the import loop actually loads (those with at least
one row). -/
def countNonempty (sheets : List SheetRows) : Nat :=
  (sheets.filter (fun rows => rows ≠ ([] : List (List String)))).length

/-- The error message each sheet-level failure of the paginated variant's
`OpenExcel` formats (the `%v` engine detail abstracted away). -/
def impErrMessage : ImpErr → String
  | .readSheet n => "读取 Sheet " ++ n ++ " 失败"
  | .dropT t => "删除表 " ++ t ++ " 失败"
  | .createT t => "创建表 " ++ t ++ " 失败"
  | .beginTx => "开启事务失败"
  | .prepareS => "预编译插入语句失败"
  | .insertRow i => "插入第 " ++ toString i ++ " 行数据失败"
  | .commitTx => "提交事务失败"

/-- `OpenExcel` of the paginated variant at the `App` level (src/app.go
lines 61-163): the db-handle check and the file dialog/parse stages, then
the sheet loop; the function never writes the session fields. `fileDialog`
is the dialog capability (`Except` error, `""` = cancelled), `parse` the
spreadsheet codec. -/
def OpenExcelOp (a : App) (orc : Oracle) (db : DB)
    (fileDialog : Except String String)
    (parse : String → Except String (List SheetRows)) :
    App × DB × String :=
  if a.dbOk = false then (a, db, "错误：数据库连接未初始化，请重启应用！") else
  match fileDialog with
  | .error e => (a, db, "文件选择失败: " ++ e)
  | .ok path =>
    if path = "" then (a, db, "未选择文件") else
    match parse path with
    | .error e => (a, db, "Excel 解析失败: " ++ e)
    | .ok sheets =>
      match openExcelV1 orc db sheets with
      | (db1, .ok (sc, n)) =>
          (a, db1, "成功导入 " ++ toString sc ++ " 个 Sheet 到数据库（共 " ++
            toString n ++ " 个 Sheet）")
      | (db1, .error e) => (a, db1, impErrMessage e)

/-! ## Export path (ExportExcelBySQL) and the legacy ExecuteSQL/SaveResult -/

/-- The cell address built by `fmt.Sprintf("%c%d", 'A'+colIdx, rowNum)`
(src/app.go lines 348 and 355): one character derived from the 0-based
column index, then the 1-based row number. -/
def cellAddr (colIdx : Nat) (rowNum : Nat) : String :=
  String.mk [Char.ofNat ('A'.toNat + colIdx)] ++ toString rowNum

/-- The header-writing loop (src/app.go lines 347-350): cell `%c1` gets
the column name; `colIdx` is the running index of the `range`. -/
def headerWrites : Nat → List String → List (String × GoValue)
  | _, [] => []
  | colIdx, cn :: rest =>
      (cellAddr colIdx 1, GoValue.str cn) :: headerWrites (colIdx + 1) rest

/-- The inner loop of the data-writing pass (src/app.go lines 354-357):
for data row `rowIdx`, cell `%c(rowIdx+2)` gets `rowData[colName]`. -/
def rowWrites (rowIdx : Nat) (rowData : Row) : Nat → List String → List (String × GoValue)
  | _, [] => []
  | colIdx, cn :: rest =>
      (cellAddr colIdx (rowIdx + 2), mapGet rowData cn) :: rowWrites rowIdx rowData (colIdx + 1) rest

/-- The outer loop of the data-writing pass (src/app.go lines 353-358),
`rowIdx` running over the materialized rows from 0. -/
def dataWrites (columns : List String) : Nat → List Row → List (String × GoValue)
  | _, [] => []
  | rowIdx, rowData :: rest =>
      rowWrites rowIdx rowData 0 columns ++ dataWrites columns (rowIdx + 1) rest

/-- Observable actions of the export paths, in execution order: querying
the engine, opening the save dialog, writing one cell, saving the file. -/
inductive Step where
  | engineQuery (q : String)
  | saveDialog
  | setCell (cell : String) (v : GoValue)
  | saveFile (path : String)
deriving DecidableEq, Repr

/-- Result of one call to `ExportExcelBySQL`: unchanged `App`, the
returned message, and the trace of external actions. -/
structure ExportCall where
  app : App
  result : String
  steps : List Step
deriving DecidableEq, Repr

/-- `ExportExcelBySQL` (src/app.go lines 263-366): check the handle, trim,
query, materialize, reject an empty result, ask for a save path
(`dialog`: `Except` failure, `""` = cancelled), write header then data
cells, save (`saveOk` abstracts `f.SaveAs`). -/
def ExportExcelBySQL (a : App) (eng : Engine) (dialog : Except String String)
    (saveOk : Bool) (sqlStr0 : String) : ExportCall :=
  if a.dbOk = false then
    ⟨a, "错误：数据库连接未初始化，请重启应用！", []⟩
  else
    let sqlStr := goTrim sqlStr0
    if sqlStr = "" then ⟨a, "错误：SQL 语句不能为空！", []⟩
    else
      match eng sqlStr with
      | .error e => ⟨a, "SQL 执行失败: " ++ e, [.engineQuery sqlStr]⟩
      | .ok er =>
        let columns := er.columns
        let fullData := exportMaterializeRows er
        if fullData.length = 0 then
          ⟨a, "导出失败：SQL 查询结果为空！", [.engineQuery sqlStr]⟩
        else
          match dialog with
          | .error e => ⟨a, "文件保存失败: " ++ e, [.engineQuery sqlStr, .saveDialog]⟩
          | .ok savePath =>
            if savePath = "" then ⟨a, "取消导出", [.engineQuery sqlStr, .saveDialog]⟩
            else
              let writes := headerWrites 0 columns ++ dataWrites columns 0 fullData
              let steps := [Step.engineQuery sqlStr, Step.saveDialog] ++
                writes.map (fun w => Step.setCell w.1 w.2) ++ [Step.saveFile savePath]
              if saveOk = false then ⟨a, "导出 Excel 失败", steps⟩
              else
                ⟨a, "Excel 导出成功: " ++ savePath ++ "（共 " ++
                  toString fullData.length ++ " 条数据）", steps⟩

/-- The state of the legacy variant's `App`: the cached last query result
(`a.queryResult`), read by `SaveResult`. -/
structure AppV2 where
  resultColumns : List String
  resultData : List Row
deriving DecidableEq, Repr

/-- Outcome of the legacy `ExecuteSQL`. -/
inductive ExecOutcome where
  | error (msg : String)
  | ok (columns : List String) (data : List Row) (message : String)
deriving DecidableEq, Repr

/-- `ExecuteSQL`, legacy variant (src/app.go lines 504-562): trim, query,
materialize with `execNormalizeV2`, cache the result in the `App` on
success only. -/
def ExecuteSQL (a : AppV2) (eng : Engine) (sqlStr0 : String) : AppV2 × ExecOutcome :=
  let sqlStr := goTrim sqlStr0
  if sqlStr = "" then (a, .error ("请输入 SQL 语句"))
  else
    match eng sqlStr with
    | .error e => (a, .error ("SQL 执行失败: " ++ e))
    | .ok er =>
      let columns := er.columns
      let data := er.rows.map (materializeRowV2 columns)
      ({ resultColumns := columns, resultData := data },
        .ok columns data ("查询到 " ++ toString data.length ++ " 条记录"))

/-- `SaveResult`, legacy variant (src/app.go lines 565-622): an empty
cached result is rejected before the save dialog; otherwise dialog, then
the CSV write (the record serialization itself is abstracted into the
single `saveFile` step, as no claim depends on it). -/
def SaveResult (a : AppV2) (dialog : Except String String) : String × List Step :=
  if a.resultData.length = 0 then ("暂无查询结果可保存", [])
  else
    match dialog with
    | .error e => ("文件保存失败: " ++ e, [.saveDialog])
    | .ok p =>
      if p = "" then ("取消保存", [.saveDialog])
      else ("文件保存成功: " ++ p, [.saveDialog, .saveFile p])

/-! ## Derived pagination quantities (the arithmetic of src/app.go lines 236-248,
named so that theorem statements stay readable) -/

/-- `start := (pageNum - 1) * pageSize`. -/
def pageStart (p s : Nat) : Nat := (p - 1) * s

/-- `end := start + pageSize`, clamped to `total`. -/
def pageStop (p s total : Nat) : Nat := min (pageStart p s + s) total

/-- The slice `fullData[start:end]` (empty when `start ≥ total`). -/
def pageSliceSpec (fullData : List Row) (p s : Nat) : List Row :=
  (fullData.drop (pageStart p s)).take (pageStop p s fullData.length - pageStart p s)

/-- `totalPages := (total + pageSize - 1) / pageSize`. -/
def totalPagesSpec (total s : Nat) : Nat := (total + s - 1) / s

/-! ## General lemmas -/

theorem goDiv_coe (m n : Nat) : goDiv (m : Int) (n : Int) = ((m / n : Nat) : Int) := rfl

theorem goSlice_coe {α : Type} (l : List α) (lo hi : Nat) (h1 : lo ≤ hi)
    (h2 : hi ≤ l.length) :
    goSlice l (lo : Int) (hi : Int) = some ((l.drop lo).take (hi - lo)) := by
  have hc : (0 : Int) ≤ (lo : Int) ∧ (lo : Int) ≤ (hi : Int) ∧
      (hi : Int) ≤ (l.length : Int) := by omega
  have h3 : ((lo : Int)).toNat = lo := by omega
  have h4 : ((hi : Int) - (lo : Int)).toNat = hi - lo := by omega
  unfold goSlice
  rw [if_pos hc, h3, h4]

/-- The ceiling-division characterization of `(total + s - 1) / s`. -/
theorem ceil_div_spec (total s : Nat) (hs : 1 ≤ s) :
    total ≤ totalPagesSpec total s * s ∧
    (0 < total → (totalPagesSpec total s - 1) * s < total) ∧
    (total = 0 → totalPagesSpec total s = 0) := by
  unfold totalPagesSpec
  refine ⟨?_, ?_, ?_⟩
  · have h := Nat.div_add_mod (total + s - 1) s
    have hlt : (total + s - 1) % s < s := Nat.mod_lt _ (by omega)
    have hc : ((total + s - 1) / s) * s = s * ((total + s - 1) / s) := Nat.mul_comm _ _
    omega
  · intro h0
    have h := Nat.div_add_mod (total + s - 1) s
    have hlt : (total + s - 1) % s < s := Nat.mod_lt _ (by omega)
    have hc : ((total + s - 1) / s) * s = s * ((total + s - 1) / s) := Nat.mul_comm _ _
    have hsub : (((total + s - 1) / s) - 1) * s = ((total + s - 1) / s) * s - s := by
      rw [Nat.sub_mul, one_mul]
    omega
  · intro h0
    subst h0
    exact Nat.div_eq_of_lt (by omega)

/-- What one successful call to `ExecuteSQLWithPage` computes, for a
well-formed page request (`p, s ≥ 1`, db initialized, non-blank query,
engine succeeds): the session state is overwritten and the outcome is the
in-memory slice of the materialized rows. -/
theorem executeSQLWithPage_ok (a : App) (eng : Engine) (q : String) (p s : Nat)
    (hp : 1 ≤ p) (hs : 1 ≤ s) (hdb : a.dbOk = true) (hq : goTrim q ≠ "")
    (er : EngineResult) (heng : eng (goTrim q) = Except.ok er) :
    ExecuteSQLWithPage a eng q (p : Int) (s : Int) =
      { app := { a with
          currentSQL := goTrim q,
          currentPage := (p : Int),
          currentPageSize := (s : Int) },
        outcome := PageOutcome.ok er.columns
          (pageSliceSpec (pageMaterializeRows er) p s)
          (pageMaterializeRows er).length
          ((totalPagesSpec (pageMaterializeRows er).length s : Nat) : Int)
          (p : Int) (s : Int)
          (pageMessage (pageMaterializeRows er).length (p : Int)
            ((totalPagesSpec (pageMaterializeRows er).length s : Nat) : Int)),
        engineCalled := true } := by
  have hdb' : ¬ (a.dbOk = false) := by simp [hdb]
  have hs0 : ¬ ((s : Int) = 0) := by omega
  unfold ExecuteSQLWithPage
  rw [if_neg hdb', if_neg hq, heng]
  show (let columns := er.columns
    let fullData := pageMaterializeRows er
    let total : Int := fullData.length
    if (s : Int) = 0 then _ else _) = _
  set T := pageMaterializeRows er with hT
  set n := T.length with hn
  simp only []
  rw [if_neg hs0]
  have e1 : ((n : Int) + (s : Int) - 1) = ((n + s - 1 : Nat) : Int) := by omega
  have e2 : ((p : Int) - 1) * (s : Int) = (((p - 1) * s : Nat) : Int) := by
    have h1 : ((p : Int) - 1) = (((p - 1 : Nat)) : Int) := by omega
    rw [h1]
    push_cast
    ring
  rw [e1, e2, goDiv_coe]
  have e3 : (if (((p - 1) * s : Nat) : Int) + (s : Int) > (n : Int) then (n : Int)
      else (((p - 1) * s : Nat) : Int) + (s : Int)) =
      ((min ((p - 1) * s + s) n : Nat) : Int) := by
    split <;> omega
  rw [e3]
  by_cases hlt : (((p - 1) * s : Nat) : Int) < (n : Int)
  · rw [if_pos hlt]
    have hlo : (p - 1) * s ≤ min ((p - 1) * s + s) n := by omega
    have hhi : min ((p - 1) * s + s) n ≤ n := by omega
    rw [goSlice_coe T _ _ hlo (by omega)]
    simp only [pageSliceSpec, pageStart, pageStop, totalPagesSpec, ← hn]
    congr 1
  · rw [if_neg hlt]
    have hge : n ≤ (p - 1) * s := by omega
    have hnil : T.drop ((p - 1) * s) = [] := by
      apply List.drop_eq_nil_of_le
      omega
    simp only [pageSliceSpec, pageStart, pageStop, totalPagesSpec, ← hn, hnil,
      List.take_nil]
    congr 1

/-- A blank (after trimming) query is rejected before anything else
happens: error result, engine not called, state untouched. -/
theorem executeSQLWithPage_blank (a : App) (eng : Engine) (q : String)
    (p s : Int) (hdb : a.dbOk = true) (hq : goTrim q = "") :
    ExecuteSQLWithPage a eng q p s =
      { app := a, outcome := .error ("请输入 SQL 语句"), engineCalled := false } := by
  unfold ExecuteSQLWithPage
  rw [if_neg (by simp [hdb]), if_pos hq]

/-- Whenever the call gets past validation, the session state is
overwritten (trimmed text, page number, page size) no matter how the
engine or the pagination turns out. -/
theorem executeSQLWithPage_state (a : App) (eng : Engine) (q : String)
    (p s : Int) (hdb : a.dbOk = true) (hq : goTrim q ≠ "") :
    (ExecuteSQLWithPage a eng q p s).app =
      { a with currentSQL := goTrim q, currentPage := p, currentPageSize := s } := by
  unfold ExecuteSQLWithPage
  rw [if_neg (by simp [hdb]), if_neg hq]
  cases eng (goTrim q) with
  | error e => rfl
  | ok er =>
    simp only []
    split
    · rfl
    · split
      · split <;> rfl
      · rfl

/-- Whenever the call gets past validation the engine is invoked — the
page size is never checked first. -/
theorem executeSQLWithPage_engineCalled (a : App) (eng : Engine) (q : String)
    (p s : Int) (hdb : a.dbOk = true) (hq : goTrim q ≠ "") :
    (ExecuteSQLWithPage a eng q p s).engineCalled = true := by
  unfold ExecuteSQLWithPage
  rw [if_neg (by simp [hdb]), if_neg hq]
  cases eng (goTrim q) with
  | error e => rfl
  | ok er =>
    simp only []
    split
    · rfl
    · split
      · split <;> rfl
      · rfl

/-- A page size of zero, with a non-blank query and a successful engine
call, drives the code into the `totalPages` division and panics. -/
theorem executeSQLWithPage_zero_pageSize (a : App) (eng : Engine) (q : String)
    (p : Int) (hdb : a.dbOk = true) (hq : goTrim q ≠ "")
    (er : EngineResult) (heng : eng (goTrim q) = Except.ok er) :
    (ExecuteSQLWithPage a eng q p 0).outcome = PageOutcome.panic := by
  unfold ExecuteSQLWithPage
  rw [if_neg (by simp [hdb]), if_neg hq, heng]
  rfl

/-- Beyond-the-data pages are empty. -/
theorem pageSliceSpec_nil (l : List Row) (p s : Nat) (h : l.length ≤ pageStart p s) :
    pageSliceSpec l p s = [] := by
  unfold pageSliceSpec
  rw [List.drop_eq_nil_of_le h, List.take_nil]

/-! ## Concrete fixtures used by witnesses and counterexamples -/

/-- An initialized `App` carrying previous session state. -/
def sampleApp : App :=
  { dbOk := true, currentPage := 1, currentPageSize := 20, currentSQL := "OLD" }

/-- A three-row, one-column engine result exercising all value kinds. -/
def sampleResult : EngineResult :=
  ⟨["column1"], [[.str "a"], [.bytes "b"], [.null]]⟩

/-- An engine answering exactly one query. -/
def sampleEngine : Engine := fun q =>
  if q = "SELECT * FROM sheet1" then .ok sampleResult else .error ("no such table")

/-- `OpenExcel` never writes the session fields: the `App` comes back
untouched on every path. -/
theorem openExcelOp_app (a : App) (orc : Oracle) (db : DB)
    (fd : Except String String) (parse : String → Except String (List SheetRows)) :
    (OpenExcelOp a orc db fd parse).1 = a := by
  unfold OpenExcelOp
  repeat' split
  all_goals rfl

/-- `ExportExcelBySQL` never writes the session fields either. -/
theorem exportExcelBySQL_app (a : App) (eng : Engine)
    (dialog : Except String String) (saveOk : Bool) (q : String) :
    (ExportExcelBySQL a eng dialog saveOk q).app = a := by
  unfold ExportExcelBySQL
  by_cases hdb : a.dbOk = false
  · rw [if_pos hdb]
  · rw [if_neg hdb]
    simp only []
    by_cases hq : goTrim q = ""
    · rw [if_pos hq]
    · rw [if_neg hq]
      cases eng (goTrim q) with
      | error e => rfl
      | ok er =>
        simp only []
        by_cases hlen : (exportMaterializeRows er).length = 0
        · rw [if_pos hlen]
        · rw [if_neg hlen]
          cases dialog with
          | error e => rfl
          | ok p =>
            simp only []
            by_cases hp : p = ""
            · rw [if_pos hp]
            · rw [if_neg hp]
              by_cases hs : saveOk = false
              · rw [if_pos hs]
              · rw [if_neg hs]

/-! ## DB and loader lemmas -/

theorem dbDrop_cons (s : String) (rows : List (List String)) (rest : DB) (t : String) :
    dbDrop ((s, rows) :: rest) t =
      if s = t then dbDrop rest t else (s, rows) :: dbDrop rest t := rfl

theorem dbLookup_cons (s : String) (rows : List (List String)) (rest : DB) (t : String) :
    dbLookup ((s, rows) :: rest) t =
      if s = t then some rows else dbLookup rest t := rfl

theorem dbSetRows_cons (s : String) (rows0 : List (List String)) (rest : DB)
    (t : String) (rows : List (List String)) :
    dbSetRows ((s, rows0) :: rest) t rows =
      if s = t then (t, rows) :: dbSetRows rest t rows
      else (s, rows0) :: dbSetRows rest t rows := rfl

theorem dbLookup_dbDrop_self (db : DB) (t : String) :
    dbLookup (dbDrop db t) t = none := by
  induction db with
  | nil => rfl
  | cons p rest ih =>
    rcases p with ⟨s, rows⟩
    rw [dbDrop_cons]
    by_cases hs : s = t
    · rw [if_pos hs]
      exact ih
    · rw [if_neg hs, dbLookup_cons, if_neg hs]
      exact ih

theorem dbLookup_dbDrop_other (db : DB) (t t' : String) (h : t' ≠ t) :
    dbLookup (dbDrop db t) t' = dbLookup db t' := by
  induction db with
  | nil => rfl
  | cons p rest ih =>
    rcases p with ⟨s, rows⟩
    rw [dbDrop_cons]
    by_cases hs : s = t
    · rw [if_pos hs, ih, dbLookup_cons, if_neg (by rw [hs]; exact fun e => h e.symm)]
    · rw [if_neg hs, dbLookup_cons, dbLookup_cons]
      by_cases hs' : s = t'
      · rw [if_pos hs', if_pos hs']
      · rw [if_neg hs', if_neg hs']
        exact ih

theorem dbLookup_dbCreate_self (db : DB) (t : String) :
    dbLookup (dbCreate db t) t = some [] := by
  unfold dbCreate
  induction db with
  | nil =>
    rw [show dbDrop ([] : DB) t = ([] : DB) from rfl, List.nil_append,
      dbLookup_cons, if_pos rfl]
  | cons p rest ih =>
    rcases p with ⟨s, rows⟩
    rw [dbDrop_cons]
    by_cases hs : s = t
    · rw [if_pos hs]
      exact ih
    · rw [if_neg hs, List.cons_append, dbLookup_cons, if_neg hs]
      exact ih

theorem dbLookup_dbCreate_other (db : DB) (t t' : String) (h : t' ≠ t) :
    dbLookup (dbCreate db t) t' = dbLookup db t' := by
  unfold dbCreate
  induction db with
  | nil =>
    rw [show dbDrop ([] : DB) t = ([] : DB) from rfl, List.nil_append,
      dbLookup_cons, if_neg (fun e => h e.symm)]
  | cons p rest ih =>
    rcases p with ⟨s, rows⟩
    rw [dbDrop_cons]
    by_cases hs : s = t
    · rw [if_pos hs, ih, dbLookup_cons, if_neg (by rw [hs]; exact fun e => h e.symm)]
    · rw [if_neg hs, List.cons_append, dbLookup_cons, dbLookup_cons]
      by_cases hs' : s = t'
      · rw [if_pos hs', if_pos hs']
      · rw [if_neg hs', if_neg hs']
        exact ih

theorem dbLookup_dbSetRows_self (db : DB) (t : String) (rows x : List (List String))
    (hx : dbLookup db t = some x) :
    dbLookup (dbSetRows db t rows) t = some rows := by
  induction db with
  | nil => cases hx
  | cons p rest ih =>
    rcases p with ⟨s, rows0⟩
    rw [dbSetRows_cons]
    by_cases hs : s = t
    · rw [if_pos hs, dbLookup_cons, if_pos rfl]
    · rw [if_neg hs, dbLookup_cons, if_neg hs]
      rw [dbLookup_cons, if_neg hs] at hx
      exact ih hx

theorem dbLookup_dbSetRows_other (db : DB) (t t' : String)
    (rows : List (List String)) (h : t' ≠ t) :
    dbLookup (dbSetRows db t rows) t' = dbLookup db t' := by
  induction db with
  | nil => rfl
  | cons p rest ih =>
    rcases p with ⟨s, rows0⟩
    rw [dbSetRows_cons]
    by_cases hs : s = t
    · rw [if_pos hs, dbLookup_cons, dbLookup_cons,
        if_neg (fun e => h e.symm), if_neg (by rw [hs]; exact fun e => h e.symm)]
      exact ih
    · rw [if_neg hs, dbLookup_cons, dbLookup_cons]
      by_cases hs' : s = t'
      · rw [if_pos hs', if_pos hs']
      · rw [if_neg hs', if_neg hs']
        exact ih

theorem loadLoop_cons (insOk : List String → Bool) (colCount : Nat)
    (base : Nat) (r : List String) (rs : List (List String)) :
    loadLoop insOk colCount base (r :: rs) =
      if insOk (insertValues r colCount) = true then
        match loadLoop insOk colCount (base + 1) rs with
        | .ok rest => .ok (insertValues r colCount :: rest)
        | .error i => .error i
      else .error base := rfl

/-- If the first `k` inserts of a sheet succeed and the `(k+1)`-st fails,
the transactional insert loop reports index `base + k`. -/
theorem loadLoop_first_failure (insOk : List String → Bool) (colCount : Nat) :
    ∀ (rows : List (List String)) (base k : Nat) (rk : List String),
    (∀ (j : Nat) (r : List String), j < k → rows[j]? = some r →
      insOk (insertValues r colCount) = true) →
    rows[k]? = some rk → insOk (insertValues rk colCount) = false →
    loadLoop insOk colCount base rows = .error (base + k) := by
  intro rows
  induction rows with
  | nil =>
    intro base k rk hok hk hf
    simp at hk
  | cons r rs ih =>
    intro base k rk hok hk hf
    cases k with
    | zero =>
      have hr : r = rk := by simpa using hk
      subst hr
      rw [loadLoop_cons, hf]
      simp
    | succ j =>
      have h0 : insOk (insertValues r colCount) = true :=
        hok 0 r (Nat.succ_pos j) (by simp)
      rw [loadLoop_cons, h0]
      simp only [if_true]
      rw [ih (base + 1) j rk
        (fun j2 r2 hj2 hr2 => hok (j2 + 1) r2 (by omega) (by simpa using hr2))
        (by simpa using hk) hf]
      have hb : base + 1 + j = base + (j + 1) := by omega
      rw [hb]

/-- If every insert of a sheet succeeds, the transactional loop returns
all its (padded, arity-constrained) rows in order. -/
theorem loadLoop_all_ok (insOk : List String → Bool) (colCount : Nat) :
    ∀ (rows : List (List String)) (base : Nat),
    (∀ r ∈ rows, insOk (insertValues r colCount) = true) →
    loadLoop insOk colCount base rows =
      .ok (rows.map (fun r => insertValues r colCount)) := by
  intro rows
  induction rows with
  | nil => intro base hok; rfl
  | cons r rs ih =>
    intro base hok
    rw [loadLoop_cons, hok r (List.mem_cons_self r rs)]
    simp only [if_true]
    rw [ih (base + 1) (fun r2 h2 => hok r2 (List.mem_cons_of_mem r h2))]
    rfl

theorem loadLoopNoTx_cons (insOk : List String → Bool) (colCount : Nat)
    (r : List String) (rs : List (List String)) :
    loadLoopNoTx insOk colCount (r :: rs) =
      if insOk (insertValues r colCount) = true then
        ((insertValues r colCount) :: (loadLoopNoTx insOk colCount rs).1,
          (loadLoopNoTx insOk colCount rs).2)
      else ([], false) := rfl

/-- The untransacted legacy loop completes when every insert succeeds. -/
theorem loadLoopNoTx_all_ok (insOk : List String → Bool) (colCount : Nat) :
    ∀ rows : List (List String),
    (∀ r ∈ rows, insOk (insertValues r colCount) = true) →
    loadLoopNoTx insOk colCount rows =
      (rows.map (fun r => insertValues r colCount), true) := by
  intro rows
  induction rows with
  | nil => intro hok; rfl
  | cons r rs ih =>
    intro hok
    rw [loadLoopNoTx_cons, hok r (List.mem_cons_self r rs)]
    simp only [if_true]
    rw [ih (fun r2 h2 => hok r2 (List.mem_cons_of_mem r h2))]
    rfl

/-! ## Sheet-loop lemmas (both variants) -/

theorem importSheets_nil (orc : Oracle) (db : DB) (idx sc : Nat) :
    importSheets orc db idx sc [] = (db, .ok sc) := rfl

theorem importSheets_empty_sheet (orc : Oracle) (db : DB) (idx sc : Nat)
    (rest : List SheetRows) :
    importSheets orc db idx sc (([] : SheetRows) :: rest) =
      importSheets orc db (idx + 1) sc rest := rfl

theorem importSheets_cons (orc : Oracle) (db : DB) (idx sc : Nat)
    (header : List String) (dataRows : List (List String)) (rest : List SheetRows) :
    importSheets orc db idx sc ((header :: dataRows) :: rest) =
      (if orc.dropOk ("sheet" ++ toString (idx + 1)) = false then
        (db, .error (.dropT ("sheet" ++ toString (idx + 1))))
      else if orc.createOk ("sheet" ++ toString (idx + 1)) = false then
        (dbDrop db ("sheet" ++ toString (idx + 1)),
          .error (.createT ("sheet" ++ toString (idx + 1))))
      else if orc.beginOk = false then
        (dbCreate (dbDrop db ("sheet" ++ toString (idx + 1)))
          ("sheet" ++ toString (idx + 1)), .error .beginTx)
      else if orc.prepareOk ("sheet" ++ toString (idx + 1)) = false then
        (dbCreate (dbDrop db ("sheet" ++ toString (idx + 1)))
          ("sheet" ++ toString (idx + 1)), .error .prepareS)
      else
        match loadLoop (orc.insertOk ("sheet" ++ toString (idx + 1)))
            header.length 1 dataRows with
        | .error i =>
            (dbCreate (dbDrop db ("sheet" ++ toString (idx + 1)))
              ("sheet" ++ toString (idx + 1)), .error (.insertRow i))
        | .ok inserted =>
            if orc.commitOk = false then
              (dbCreate (dbDrop db ("sheet" ++ toString (idx + 1)))
                ("sheet" ++ toString (idx + 1)), .error .commitTx)
            else
              importSheets orc
                (dbSetRows (dbCreate (dbDrop db ("sheet" ++ toString (idx + 1)))
                  ("sheet" ++ toString (idx + 1)))
                  ("sheet" ++ toString (idx + 1)) inserted)
                (idx + 1) (sc + 1) rest) := rfl

/-- A failing insert aborts the sheet right after rollback: the result is
the freshly created (still empty) table and the row-indexed error,
whatever sheets were still pending. -/
theorem importSheets_insert_failure (orc : Oracle) (db : DB) (idx sc : Nat)
    (header : List String) (dataRows : List (List String)) (rest : List SheetRows)
    (hdrop : orc.dropOk ("sheet" ++ toString (idx + 1)) = true)
    (hcreate : orc.createOk ("sheet" ++ toString (idx + 1)) = true)
    (hbegin : orc.beginOk = true)
    (hprep : orc.prepareOk ("sheet" ++ toString (idx + 1)) = true)
    (i : Nat)
    (hload : loadLoop (orc.insertOk ("sheet" ++ toString (idx + 1)))
      header.length 1 dataRows = .error i) :
    importSheets orc db idx sc ((header :: dataRows) :: rest) =
      (dbCreate (dbDrop db ("sheet" ++ toString (idx + 1)))
        ("sheet" ++ toString (idx + 1)), .error (.insertRow i)) := by
  rw [importSheets_cons, if_neg (by simp [hdrop]), if_neg (by simp [hcreate]),
    if_neg (by simp [hbegin]), if_neg (by simp [hprep]), hload]

/-- Fail-fast: once the sheet loop stops with an error, appending more
sheets to the file changes nothing — they are never attempted. -/
theorem importSheets_error_append (orc : Oracle) :
    ∀ (l1 l2 : List SheetRows) (db : DB) (idx sc : Nat) (db1 : DB) (e : ImpErr),
    importSheets orc db idx sc l1 = (db1, .error e) →
    importSheets orc db idx sc (l1 ++ l2) = (db1, .error e) := by
  intro l1
  induction l1 with
  | nil =>
    intro l2 db idx sc db1 e h
    rw [importSheets_nil] at h
    have h2 := congrArg Prod.snd h
    simp at h2
  | cons rows rest1 ih =>
    intro l2 db idx sc db1 e h
    cases rows with
    | nil =>
      rw [importSheets_empty_sheet] at h
      rw [List.cons_append, importSheets_empty_sheet]
      exact ih l2 db (idx + 1) sc db1 e h
    | cons header dataRows =>
      rw [importSheets_cons] at h
      rw [List.cons_append, importSheets_cons]
      by_cases h1 : orc.dropOk ("sheet" ++ toString (idx + 1)) = false
      · rw [if_pos h1] at h ⊢
        exact h
      · rw [if_neg h1] at h ⊢
        by_cases h2 : orc.createOk ("sheet" ++ toString (idx + 1)) = false
        · rw [if_pos h2] at h ⊢
          exact h
        · rw [if_neg h2] at h ⊢
          by_cases h3 : orc.beginOk = false
          · rw [if_pos h3] at h ⊢
            exact h
          · rw [if_neg h3] at h ⊢
            by_cases h4 : orc.prepareOk ("sheet" ++ toString (idx + 1)) = false
            · rw [if_pos h4] at h ⊢
              exact h
            · rw [if_neg h4] at h ⊢
              cases hl : loadLoop (orc.insertOk ("sheet" ++ toString (idx + 1)))
                  header.length 1 dataRows with
              | error i =>
                rw [hl] at h
                exact h
              | ok inserted =>
                rw [hl] at h
                simp only [] at h ⊢
                by_cases h5 : orc.commitOk = false
                · rw [if_pos h5] at h ⊢
                  exact h
                · rw [if_neg h5] at h ⊢
                  exact ih l2 _ (idx + 1) (sc + 1) db1 e h

/-- When the engine accepts everything, the sheet loop succeeds and counts
exactly the nonempty sheets. -/
theorem importSheets_all_ok (orc : Oracle)
    (hdrop : ∀ t, orc.dropOk t = true) (hcreate : ∀ t, orc.createOk t = true)
    (hbegin : orc.beginOk = true) (hprep : ∀ t, orc.prepareOk t = true)
    (hins : ∀ t v, orc.insertOk t v = true) (hcommit : orc.commitOk = true) :
    ∀ (sheets : List SheetRows) (db : DB) (idx sc : Nat),
    (importSheets orc db idx sc sheets).2 = .ok (sc + countNonempty sheets) := by
  intro sheets
  induction sheets with
  | nil =>
    intro db idx sc
    rw [importSheets_nil]
    simp [countNonempty]
  | cons rows rest ih =>
    intro db idx sc
    cases rows with
    | nil =>
      rw [importSheets_empty_sheet, ih]
      have hc : countNonempty (([] : SheetRows) :: rest) = countNonempty rest := by
        simp [countNonempty]
      rw [hc]
    | cons header dataRows =>
      have hl : loadLoop (orc.insertOk ("sheet" ++ toString (idx + 1)))
          header.length 1 dataRows =
          .ok (dataRows.map (fun r => insertValues r header.length)) :=
        loadLoop_all_ok _ _ dataRows 1 (fun r hr => hins _ _)
      rw [importSheets_cons, if_neg (by simp [hdrop]), if_neg (by simp [hcreate]),
        if_neg (by simp [hbegin]), if_neg (by simp [hprep])]
      simp only [hl]
      rw [if_neg (by simp [hcommit]), ih]
      have hc : countNonempty ((header :: dataRows) :: rest) =
          countNonempty rest + 1 := by
        simp [countNonempty]
      rw [hc]
      have ha : sc + 1 + countNonempty rest = sc + (countNonempty rest + 1) := by
        omega
      rw [ha]

theorem importSheetsV2_nil (orc : Oracle) (db : DB) (idx : Nat) :
    importSheetsV2 orc db idx [] = (db, .ok ()) := rfl

theorem importSheetsV2_empty_sheet (orc : Oracle) (db : DB) (idx : Nat)
    (rest : List SheetRows) :
    importSheetsV2 orc db idx (([] : SheetRows) :: rest) =
      importSheetsV2 orc db (idx + 1) rest := rfl

theorem importSheetsV2_cons (orc : Oracle) (db : DB) (idx : Nat)
    (header : List String) (dataRows : List (List String)) (rest : List SheetRows) :
    importSheetsV2 orc db idx ((header :: dataRows) :: rest) =
      (if orc.dropOk ("sheet" ++ toString (idx + 1)) = false then
        (db, .error (.dropT ("sheet" ++ toString (idx + 1))))
      else if orc.createOk ("sheet" ++ toString (idx + 1)) = false then
        (dbDrop db ("sheet" ++ toString (idx + 1)),
          .error (.createT ("sheet" ++ toString (idx + 1))))
      else
        if (loadLoopNoTx (orc.insertOk ("sheet" ++ toString (idx + 1)))
            header.length dataRows).2 = false then
          (dbSetRows (dbCreate (dbDrop db ("sheet" ++ toString (idx + 1)))
            ("sheet" ++ toString (idx + 1)))
            ("sheet" ++ toString (idx + 1))
            (loadLoopNoTx (orc.insertOk ("sheet" ++ toString (idx + 1)))
              header.length dataRows).1, .error .insertFailed)
        else
          importSheetsV2 orc
            (dbSetRows (dbCreate (dbDrop db ("sheet" ++ toString (idx + 1)))
              ("sheet" ++ toString (idx + 1)))
              ("sheet" ++ toString (idx + 1))
              (loadLoopNoTx (orc.insertOk ("sheet" ++ toString (idx + 1)))
                header.length dataRows).1)
            (idx + 1) rest) := rfl

/-- The legacy loop also succeeds when the engine accepts everything. -/
theorem importSheetsV2_all_ok (orc : Oracle)
    (hdrop : ∀ t, orc.dropOk t = true) (hcreate : ∀ t, orc.createOk t = true)
    (hins : ∀ t v, orc.insertOk t v = true) :
    ∀ (sheets : List SheetRows) (db : DB) (idx : Nat),
    (importSheetsV2 orc db idx sheets).2 = .ok () := by
  intro sheets
  induction sheets with
  | nil =>
    intro db idx
    rfl
  | cons rows rest ih =>
    intro db idx
    cases rows with
    | nil =>
      rw [importSheetsV2_empty_sheet]
      exact ih db (idx + 1)
    | cons header dataRows =>
      rw [importSheetsV2_cons, if_neg (by simp [hdrop]), if_neg (by simp [hcreate]),
        loadLoopNoTx_all_ok _ _ dataRows (fun r hr => hins _ _)]
      rw [if_neg (by simp)]
      exact ih _ (idx + 1)

/-- Fail-fast holds for the legacy loop too: once it stops with an error,
appending more sheets to the file changes nothing — they are never
attempted. -/
theorem importSheetsV2_error_append (orc : Oracle) :
    ∀ (l1 l2 : List SheetRows) (db : DB) (idx : Nat) (db1 : DB) (e : ImpErr2),
    importSheetsV2 orc db idx l1 = (db1, .error e) →
    importSheetsV2 orc db idx (l1 ++ l2) = (db1, .error e) := by
  intro l1
  induction l1 with
  | nil =>
    intro l2 db idx db1 e h
    rw [importSheetsV2_nil] at h
    have h2 := congrArg Prod.snd h
    simp at h2
  | cons rows rest1 ih =>
    intro l2 db idx db1 e h
    cases rows with
    | nil =>
      rw [importSheetsV2_empty_sheet] at h
      rw [List.cons_append, importSheetsV2_empty_sheet]
      exact ih l2 db (idx + 1) db1 e h
    | cons header dataRows =>
      rw [importSheetsV2_cons] at h
      rw [List.cons_append, importSheetsV2_cons]
      by_cases h1 : orc.dropOk ("sheet" ++ toString (idx + 1)) = false
      · rw [if_pos h1] at h ⊢
        exact h
      · rw [if_neg h1] at h ⊢
        by_cases h2 : orc.createOk ("sheet" ++ toString (idx + 1)) = false
        · rw [if_pos h2] at h ⊢
          exact h
        · rw [if_neg h2] at h ⊢
          by_cases h3 : (loadLoopNoTx (orc.insertOk ("sheet" ++ toString (idx + 1)))
              header.length dataRows).2 = false
          · rw [if_pos h3] at h ⊢
            exact h
          · rw [if_neg h3] at h ⊢
            exact ih l2 _ (idx + 1) db1 e h

/-! ## Claims -/

/-- C1: for every query through the paginated path with page number `p ≥ 1`
and page size `s ≥ 1`, the returned page is the slice of the materialized
rows from `start = (p-1)*s` to `end = min(start+s, total)`; when
`start ≥ total` the page is empty and no error is reported (the outcome is
still `ok`); `totalPages` is the ceiling of `total/s` (characterized by
`total ≤ totalPages*s` and `(totalPages-1)*s < total` for positive totals),
and a total of `0` yields `totalPages = 0`. -/
theorem paged_query_slices_materialized_result (a : App) (eng : Engine)
    (q : String) (p s : Nat) (hp : 1 ≤ p) (hs : 1 ≤ s) (hdb : a.dbOk = true)
    (hq : goTrim q ≠ "") (er : EngineResult)
    (heng : eng (goTrim q) = Except.ok er) :
    (ExecuteSQLWithPage a eng q (p : Int) (s : Int)).outcome =
      PageOutcome.ok er.columns (pageSliceSpec (pageMaterializeRows er) p s)
        (pageMaterializeRows er).length
        ((totalPagesSpec (pageMaterializeRows er).length s : Nat) : Int)
        (p : Int) (s : Int)
        (pageMessage (pageMaterializeRows er).length (p : Int)
          ((totalPagesSpec (pageMaterializeRows er).length s : Nat) : Int)) ∧
    (pageMaterializeRows er).length ≤
      totalPagesSpec (pageMaterializeRows er).length s * s ∧
    (0 < (pageMaterializeRows er).length →
      (totalPagesSpec (pageMaterializeRows er).length s - 1) * s <
        (pageMaterializeRows er).length) ∧
    ((pageMaterializeRows er).length = 0 →
      totalPagesSpec (pageMaterializeRows er).length s = 0) ∧
    ((pageMaterializeRows er).length ≤ pageStart p s →
      pageSliceSpec (pageMaterializeRows er) p s = []) := by
  refine ⟨?_, (ceil_div_spec _ s hs).1, (ceil_div_spec _ s hs).2.1,
    (ceil_div_spec _ s hs).2.2, fun h => pageSliceSpec_nil _ p s h⟩
  rw [executeSQLWithPage_ok a eng q p s hp hs hdb hq er heng]

/-- C1 witness: the spec scenario — 3 materialized rows, page 2 of size 2
gives one row and 2 total pages. -/
theorem paged_query_slices_materialized_result_witness :
    (ExecuteSQLWithPage sampleApp sampleEngine ("SELECT * FROM sheet1")
        ((2 : Nat) : Int) ((2 : Nat) : Int)).outcome =
      PageOutcome.ok sampleResult.columns
        (pageSliceSpec (pageMaterializeRows sampleResult) 2 2)
        (pageMaterializeRows sampleResult).length
        ((totalPagesSpec (pageMaterializeRows sampleResult).length 2 : Nat) : Int)
        ((2 : Nat) : Int) ((2 : Nat) : Int)
        (pageMessage (pageMaterializeRows sampleResult).length ((2 : Nat) : Int)
          ((totalPagesSpec (pageMaterializeRows sampleResult).length 2 : Nat) : Int)) ∧
    (pageMaterializeRows sampleResult).length ≤
      totalPagesSpec (pageMaterializeRows sampleResult).length 2 * 2 ∧
    (0 < (pageMaterializeRows sampleResult).length →
      (totalPagesSpec (pageMaterializeRows sampleResult).length 2 - 1) * 2 <
        (pageMaterializeRows sampleResult).length) ∧
    ((pageMaterializeRows sampleResult).length = 0 →
      totalPagesSpec (pageMaterializeRows sampleResult).length 2 = 0) ∧
    ((pageMaterializeRows sampleResult).length ≤ pageStart 2 2 →
      pageSliceSpec (pageMaterializeRows sampleResult) 2 2 = []) :=
  paged_query_slices_materialized_result sampleApp sampleEngine
    ("SELECT * FROM sheet1") 2 2 (by decide) (by decide) rfl (by decide)
    sampleResult rfl

/-- C3 (amended): a query text that is empty after trimming is caught with
an error before the engine is called and without touching any state; but a
non-positive page size is NOT validated — any call that passes the
emptiness check invokes the store engine whatever the page size is, and a
page size of zero then makes the pagination arithmetic divide by zero,
which panics (terminates) the Go process. -/
theorem blank_query_caught_but_page_size_unchecked :
    (∀ (a : App) (eng : Engine) (q : String) (p s : Int),
      a.dbOk = true → goTrim q = "" →
      ExecuteSQLWithPage a eng q p s =
        { app := a, outcome := .error ("请输入 SQL 语句"), engineCalled := false }) ∧
    (∀ (a : App) (eng : Engine) (q : String) (p s : Int),
      a.dbOk = true → goTrim q ≠ "" →
      (ExecuteSQLWithPage a eng q p s).engineCalled = true) ∧
    (∀ (a : App) (eng : Engine) (q : String) (p : Int) (er : EngineResult),
      a.dbOk = true → goTrim q ≠ "" → eng (goTrim q) = Except.ok er →
      (ExecuteSQLWithPage a eng q p 0).outcome = PageOutcome.panic) :=
  ⟨fun a eng q p s hdb hq => executeSQLWithPage_blank a eng q p s hdb hq,
   fun a eng q p s hdb hq => executeSQLWithPage_engineCalled a eng q p s hdb hq,
   fun a eng q p er hdb hq heng =>
     executeSQLWithPage_zero_pageSize a eng q p hdb hq er heng⟩

/-- C3 witness: a whitespace-only query is rejected without an engine
call; a page size of 0 (and even -3) still reaches the engine; size 0
then panics. -/
theorem blank_query_caught_but_page_size_unchecked_witness :
    ExecuteSQLWithPage sampleApp sampleEngine ("   ") 5 9 =
      { app := sampleApp, outcome := .error ("请输入 SQL 语句"),
        engineCalled := false } ∧
    (ExecuteSQLWithPage sampleApp sampleEngine ("SELECT * FROM sheet1")
      1 (-3)).engineCalled = true ∧
    (ExecuteSQLWithPage sampleApp sampleEngine ("SELECT * FROM sheet1")
      1 0).outcome = PageOutcome.panic :=
  ⟨blank_query_caught_but_page_size_unchecked.1 sampleApp sampleEngine
      ("   ") 5 9 rfl (by decide),
   blank_query_caught_but_page_size_unchecked.2.1 sampleApp sampleEngine
      ("SELECT * FROM sheet1") 1 (-3) rfl (by decide),
   blank_query_caught_but_page_size_unchecked.2.2 sampleApp sampleEngine
      ("SELECT * FROM sheet1") 1 sampleResult rfl (by decide) rfl⟩

/-- C3 counterexample: with a non-positive page size (0) and a perfectly
good query, the call is NOT caught by validation: the store engine is
invoked, and the pagination arithmetic then panics — contradicting "an
error returned before any call reaches the store engine, and the process
is never terminated by such an input". -/
theorem page_size_zero_reaches_engine_and_panics :
    (ExecuteSQLWithPage sampleApp sampleEngine ("SELECT * FROM sheet1")
      1 0).engineCalled = true ∧
    (ExecuteSQLWithPage sampleApp sampleEngine ("SELECT * FROM sheet1")
      1 0).outcome = PageOutcome.panic := by
  constructor <;> decide

/-- C10 (amended): every call to `ExecuteSQLWithPage` that passes its two
validation gates (initialized db handle, non-blank trimmed text)
overwrites the session state — trimmed query text, page number, page
size — before the query is executed, so the state is updated even when
execution subsequently fails, and `GetCurrentSQL` afterwards returns
exactly that trimmed text; a call rejected by validation leaves the state
untouched; and no other exported operation (`OpenExcel`,
`ExportExcelBySQL`, `GetCurrentSQL`) modifies these fields. -/
theorem session_state_overwritten_only_by_paged_query :
    (∀ (a : App) (eng : Engine) (q : String) (p s : Int),
      a.dbOk = true → goTrim q ≠ "" →
      (ExecuteSQLWithPage a eng q p s).app =
        { a with currentSQL := goTrim q, currentPage := p, currentPageSize := s } ∧
      (GetCurrentSQL (ExecuteSQLWithPage a eng q p s).app).2 = goTrim q) ∧
    (∀ (a : App) (eng : Engine) (q : String) (p s : Int),
      a.dbOk = true → goTrim q = "" →
      (ExecuteSQLWithPage a eng q p s).app = a) ∧
    (∀ (a : App) (orc : Oracle) (db : DB) (fd : Except String String)
      (parse : String → Except String (List SheetRows)),
      (OpenExcelOp a orc db fd parse).1 = a) ∧
    (∀ (a : App) (eng : Engine) (dialog : Except String String)
      (saveOk : Bool) (q : String),
      (ExportExcelBySQL a eng dialog saveOk q).app = a) ∧
    (∀ a : App, (GetCurrentSQL a).1 = a) :=
  ⟨fun a eng q p s hdb hq =>
      ⟨executeSQLWithPage_state a eng q p s hdb hq,
       by rw [executeSQLWithPage_state a eng q p s hdb hq]; rfl⟩,
   fun a eng q p s hdb hq => by rw [executeSQLWithPage_blank a eng q p s hdb hq],
   fun a orc db fd parse => openExcelOp_app a orc db fd parse,
   fun a eng dialog saveOk q => exportExcelBySQL_app a eng dialog saveOk q,
   fun a => rfl⟩

/-- C10 witness: a concrete paginated call (whose engine call fails, note)
still overwrites the state; a blank call leaves it alone; the other
operations leave it alone. -/
theorem session_state_overwritten_only_by_paged_query_witness :
    ((ExecuteSQLWithPage sampleApp sampleEngine ("DROP TABLE sheet1") 7 9).app =
      { sampleApp with
        currentSQL := goTrim ("DROP TABLE sheet1"),
        currentPage := 7,
        currentPageSize := 9 } ∧
     (GetCurrentSQL (ExecuteSQLWithPage sampleApp sampleEngine
        ("DROP TABLE sheet1") 7 9).app).2 = goTrim ("DROP TABLE sheet1")) ∧
    (ExecuteSQLWithPage sampleApp sampleEngine ("   ") 5 9).app = sampleApp ∧
    (OpenExcelOp sampleApp
      ⟨fun _ => true, fun _ => true, true, fun _ => true, fun _ _ => true, true⟩
      [] (Except.ok ("f.xlsx")) (fun _ => Except.ok [])).1 = sampleApp ∧
    (ExportExcelBySQL sampleApp sampleEngine (Except.ok ("out.xlsx")) true
      ("SELECT * FROM sheet1")).app = sampleApp ∧
    (GetCurrentSQL sampleApp).1 = sampleApp :=
  ⟨session_state_overwritten_only_by_paged_query.1 sampleApp sampleEngine
      ("DROP TABLE sheet1") 7 9 rfl (by decide),
   session_state_overwritten_only_by_paged_query.2.1 sampleApp sampleEngine
      ("   ") 5 9 rfl (by decide),
   session_state_overwritten_only_by_paged_query.2.2.1 sampleApp
      ⟨fun _ => true, fun _ => true, true, fun _ => true, fun _ _ => true, true⟩
      [] (Except.ok ("f.xlsx")) (fun _ => Except.ok []),
   session_state_overwritten_only_by_paged_query.2.2.2.1 sampleApp sampleEngine
      (Except.ok ("out.xlsx")) true ("SELECT * FROM sheet1"),
   session_state_overwritten_only_by_paged_query.2.2.2.2 sampleApp⟩

/-- C10 counterexample: a whitespace-only call is an attempted paginated
query, yet it does NOT overwrite the session state: `currentSQL` stays
"OLD" (not the trimmed text "") and `currentPage` stays 1 (not the
supplied 5), so "every call ... overwrites the session state ... with the
trimmed query text and the supplied parameters" is false as stated. -/
theorem blank_call_leaves_session_state_unchanged :
    (GetCurrentSQL (ExecuteSQLWithPage sampleApp sampleEngine
        ("   ") 5 9).app).2 = "OLD" ∧
    goTrim ("   ") = "" ∧ ("OLD" : String) ≠ "" ∧
    (ExecuteSQLWithPage sampleApp sampleEngine ("   ") 5 9).app.currentPage = 1 ∧
    (1 : Int) ≠ 5 := by
  refine ⟨by decide, by decide, by decide, by decide, by decide⟩

/-- C4: for every data row, the values bound to the insert are exactly
`colCount` many; positions covered by the row keep the row's cells,
missing trailing positions are the empty string (never absent), and
excess cells of wider rows are never passed. -/
theorem insert_arity_pads_and_truncates (row : List String) (colCount : Nat) :
    (insertValues row colCount).length = colCount ∧
    (∀ i : Nat, i < colCount → i < row.length →
      (insertValues row colCount)[i]? = row[i]?) ∧
    (∀ i : Nat, row.length ≤ i → i < colCount →
      (insertValues row colCount)[i]? = some "") := by
  unfold insertValues padRow
  refine ⟨?_, ?_, ?_⟩
  · rw [List.length_take, List.length_append, List.length_replicate]
    omega
  · intro i hic hir
    rw [List.getElem?_take, if_pos hic, List.getElem?_append, if_pos hir]
  · intro i hri hic
    rw [List.getElem?_take, if_pos hic, List.getElem?_append_right hri,
      List.getElem?_replicate]
    rw [if_pos (by omega)]

/-- C4 witness: a 2-cell row into 3 columns gets an empty-string third
value; a 3-cell row into 2 columns passes only 2 values. -/
theorem insert_arity_pads_and_truncates_witness :
    (insertValues (["a", "b"]) 3).length = 3 ∧
    (insertValues (["a", "b"]) 3)[1]? = (["a", "b"] : List String)[1]? ∧
    (insertValues (["a", "b"]) 3)[2]? = some "" ∧
    (insertValues (["a", "b", "c"]) 2).length = 2 :=
  ⟨(insert_arity_pads_and_truncates (["a", "b"]) 3).1,
   (insert_arity_pads_and_truncates (["a", "b"]) 3).2.1 1 (by decide) (by decide),
   (insert_arity_pads_and_truncates (["a", "b"]) 3).2.2 2 (by decide) (by decide),
   (insert_arity_pads_and_truncates (["a", "b", "c"]) 2).1⟩

/-- C5 (amended): every value placed into a materialized result row first
passes through the variant's normalization; in `ExecuteSQLWithPage` and
`ExportExcelBySQL` raw byte sequences become their text form and null
becomes the empty string, but in the legacy `ExecuteSQL` null is passed
through unchanged (only byte sequences are converted). -/
theorem values_normalized_per_variant :
    (∀ b : String, pageNormalize (GoValue.bytes b) = GoValue.str b) ∧
    pageNormalize GoValue.null = GoValue.str "" ∧
    (∀ b : String, exportNormalize (GoValue.bytes b) = GoValue.str b) ∧
    exportNormalize GoValue.null = GoValue.str "" ∧
    (∀ (columns : List String) (vals : List GoValue) (c : String) (v : GoValue),
      (c, v) ∈ materializeRowPage columns vals → ∃ w, v = pageNormalize w) ∧
    (∀ (columns : List String) (vals : List GoValue) (c : String) (v : GoValue),
      (c, v) ∈ materializeRowExport columns vals → ∃ w, v = exportNormalize w) ∧
    (∀ b : String, execNormalizeV2 (GoValue.bytes b) = GoValue.str b) ∧
    execNormalizeV2 GoValue.null = GoValue.null := by
  refine ⟨fun b => rfl, rfl, fun b => rfl, rfl, ?_, ?_, fun b => rfl, rfl⟩
  · intro columns vals c v hm
    rcases List.mem_map.1 hm with ⟨p, _, hp⟩
    exact ⟨p.2, by cases hp; rfl⟩
  · intro columns vals c v hm
    rcases List.mem_map.1 hm with ⟨p, _, hp⟩
    exact ⟨p.2, by cases hp; rfl⟩

/-- C5 witness: the concrete normalizations, and a concrete materialized
null in the paginated path. -/
theorem values_normalized_per_variant_witness :
    pageNormalize (GoValue.bytes ("raw")) = GoValue.str ("raw") ∧
    pageNormalize GoValue.null = GoValue.str "" ∧
    (∃ w, GoValue.str "" = pageNormalize w) ∧
    execNormalizeV2 GoValue.null = GoValue.null :=
  ⟨values_normalized_per_variant.1 ("raw"),
   values_normalized_per_variant.2.1,
   values_normalized_per_variant.2.2.2.2.1 (["column1"]) ([GoValue.null])
     ("column1") (GoValue.str "") (by decide),
   values_normalized_per_variant.2.2.2.2.2.2.2⟩

/-- C5 counterexample: running the legacy `ExecuteSQL` over a result
containing a SQL NULL materializes the value as `null`, not as the empty
string, refuting "a null/absent value becomes the empty string" for every
materialized row. -/
theorem legacy_execute_sql_passes_null_through :
    (ExecuteSQL ⟨[], []⟩ sampleEngine ("SELECT * FROM sheet1")).2 =
      ExecOutcome.ok (["column1"])
        ([[("column1", GoValue.str "a")], [("column1", GoValue.str "b")],
          [("column1", GoValue.null)]])
        ("查询到 3 条记录") ∧
    GoValue.null ≠ GoValue.str "" := by
  constructor <;> decide

/-- An engine oracle that accepts everything. -/
def allOkOracle : Oracle :=
  ⟨fun _ => true, fun _ => true, true, fun _ => true, fun _ _ => true, true⟩

/-- An engine oracle whose inserts reject any values-tuple starting with
"b" (standing for a constraint/engine failure at that row). -/
def failBOracle : Oracle :=
  ⟨fun _ => true, fun _ => true, true, fun _ => true,
   fun _ v => !(v.head? == some "b"), true⟩

/-- C2 (amended, the transactional variant): within a sheet whose first
failing insert is data row `k+1` (1-based from the first data row),
the import returns the row-indexed error, the sheet's table is left with 0
rows (rollback of the freshly created table), every other table is
untouched, and the result is the same whatever sheets were still pending
— the import aborts without attempting them. -/
theorem sheet_insert_failure_rolls_back_and_aborts
    (orc : Oracle) (db : DB) (idx sc : Nat) (header : List String)
    (dataRows : List (List String)) (rest : List SheetRows)
    (tn : String) (htn : tn = "sheet" ++ toString (idx + 1))
    (hdrop : orc.dropOk tn = true) (hcreate : orc.createOk tn = true)
    (hbegin : orc.beginOk = true) (hprep : orc.prepareOk tn = true)
    (k : Nat) (rk : List String)
    (hok : ∀ (j : Nat) (r : List String), j < k → dataRows[j]? = some r →
      orc.insertOk tn (insertValues r header.length) = true)
    (hk : dataRows[k]? = some rk)
    (hf : orc.insertOk tn (insertValues rk header.length) = false) :
    importSheets orc db idx sc ((header :: dataRows) :: rest) =
      (dbCreate (dbDrop db tn) tn, .error (.insertRow (k + 1))) ∧
    dbLookup (importSheets orc db idx sc ((header :: dataRows) :: rest)).1 tn =
      some [] ∧
    (∀ t2, t2 ≠ tn →
      dbLookup (importSheets orc db idx sc ((header :: dataRows) :: rest)).1 t2 =
        dbLookup db t2) ∧
    importSheets orc db idx sc ((header :: dataRows) :: rest) =
      importSheets orc db idx sc [header :: dataRows] := by
  subst htn
  have hload : loadLoop (orc.insertOk ("sheet" ++ toString (idx + 1)))
      header.length 1 dataRows = .error (k + 1) := by
    rw [loadLoop_first_failure _ _ dataRows 1 k rk hok hk hf]
    rw [Nat.add_comm]
  have he := importSheets_insert_failure orc db idx sc header dataRows rest
    hdrop hcreate hbegin hprep (k + 1) hload
  have he2 := importSheets_insert_failure orc db idx sc header dataRows []
    hdrop hcreate hbegin hprep (k + 1) hload
  refine ⟨he, ?_, ?_, ?_⟩
  · rw [he]
    exact dbLookup_dbCreate_self _ _
  · intro t2 ht2
    rw [he]
    show dbLookup (dbCreate (dbDrop db ("sheet" ++ toString (idx + 1)))
      ("sheet" ++ toString (idx + 1))) t2 = dbLookup db t2
    rw [dbLookup_dbCreate_other _ _ _ ht2, dbLookup_dbDrop_other _ _ _ ht2]
  · rw [he, he2]

/-- C2 witness: the sheet `[[h1,h2],[a,1],[b],[c,3]]` whose second data
row (padded to `[b,""]`) is rejected: the error names row 2, the table is
empty, other tables are untouched and pending sheets are not attempted. -/
theorem sheet_insert_failure_rolls_back_and_aborts_witness :
    importSheets failBOracle [] 0 0
        ((["h1", "h2"] :: [["a", "1"], ["b"], ["c", "3"]]) :: [[["x"], ["y"]]]) =
      (dbCreate (dbDrop [] ("sheet1")) ("sheet1"),
        .error (.insertRow (1 + 1))) ∧
    dbLookup (importSheets failBOracle [] 0 0
        ((["h1", "h2"] :: [["a", "1"], ["b"], ["c", "3"]]) :: [[["x"], ["y"]]])).1
      ("sheet1") = some [] ∧
    (∀ t2, t2 ≠ ("sheet1") →
      dbLookup (importSheets failBOracle [] 0 0
          ((["h1", "h2"] :: [["a", "1"], ["b"], ["c", "3"]]) :: [[["x"], ["y"]]])).1
        t2 = dbLookup [] t2) ∧
    importSheets failBOracle [] 0 0
        ((["h1", "h2"] :: [["a", "1"], ["b"], ["c", "3"]]) :: [[["x"], ["y"]]]) =
      importSheets failBOracle [] 0 0 [["h1", "h2"] :: [["a", "1"], ["b"], ["c", "3"]]] :=
  sheet_insert_failure_rolls_back_and_aborts failBOracle [] 0 0
    (["h1", "h2"]) ([["a", "1"], ["b"], ["c", "3"]]) ([[["x"], ["y"]]])
    ("sheet1") (by decide) (by decide) (by decide) (by decide) (by decide)
    1 (["b"])
    (by
      intro j r hj hr
      have hj0 : j = 0 := by omega
      subst hj0
      simp only [List.getElem?_cons_zero, Option.some.injEq] at hr
      subst hr
      decide)
    (by decide) (by decide)

/-- C2 counterexample: the legacy variant's loader (also cited by the
claim) has no transaction: after its insert fails on data row 2, the
table keeps the first row (1 row, not 0) and the error carries no row
index — so "all data-row inserts happen inside a single transaction ...
the table ends with 0 rows ... the returned error identifies the failing
row index" is false as stated over both variants. -/
theorem legacy_loader_keeps_partial_rows_on_failed_insert :
    openExcelV2 failBOracle [] ([[["h"], ["a"], ["b"], ["c"]]]) =
      ([("sheet1", [["a"]])], Except.error ImpErr2.insertFailed) ∧
    dbLookup ([("sheet1", [["a"]])]) ("sheet1") ≠ some [] := by
  constructor
  · rfl
  · decide

/-- C7 (amended): in both variants, sheets with zero rows are skipped
(the loop moves on with the database — and, in the paginated variant, the
success count — untouched; no table is created) and the import aborts on
the first sheet-level failure with pending sheets never attempted; on
success the paginated variant reports the pair (sheets imported, sheets
discovered) while the legacy variant reports only the number of sheets
discovered. -/
theorem import_skips_empty_sheets_fails_fast_reports_counts :
    (∀ (orc : Oracle) (db : DB) (idx sc : Nat) (rest : List SheetRows),
      importSheets orc db idx sc (([] : SheetRows) :: rest) =
        importSheets orc db (idx + 1) sc rest) ∧
    (∀ (orc : Oracle) (l1 l2 : List SheetRows) (db db1 : DB) (e : ImpErr),
      importSheets orc db 0 0 l1 = (db1, .error e) →
      openExcelV1 orc db (l1 ++ l2) = (db1, .error e)) ∧
    (∀ (orc : Oracle) (db : DB) (idx : Nat) (rest : List SheetRows),
      importSheetsV2 orc db idx (([] : SheetRows) :: rest) =
        importSheetsV2 orc db (idx + 1) rest) ∧
    (∀ (orc : Oracle) (l1 l2 : List SheetRows) (db db1 : DB) (e : ImpErr2),
      importSheetsV2 orc db 0 l1 = (db1, .error e) →
      openExcelV2 orc db (l1 ++ l2) = (db1, .error e)) ∧
    (∀ orc : Oracle, (∀ t, orc.dropOk t = true) → (∀ t, orc.createOk t = true) →
      orc.beginOk = true → (∀ t, orc.prepareOk t = true) →
      (∀ t v, orc.insertOk t v = true) → orc.commitOk = true →
      ∀ (sheets : List SheetRows) (db : DB),
      (openExcelV1 orc db sheets).2 = .ok (countNonempty sheets, sheets.length)) ∧
    (∀ orc : Oracle, (∀ t, orc.dropOk t = true) → (∀ t, orc.createOk t = true) →
      (∀ t v, orc.insertOk t v = true) →
      ∀ (sheets : List SheetRows) (db : DB),
      (openExcelV2 orc db sheets).2 = .ok sheets.length) := by
  refine ⟨?_, ?_, ?_, ?_, ?_, ?_⟩
  · intro orc db idx sc rest
    exact importSheets_empty_sheet orc db idx sc rest
  · intro orc l1 l2 db db1 e h
    have h2 := importSheets_error_append orc l1 l2 db 0 0 db1 e h
    unfold openExcelV1
    rw [h2]
  · intro orc db idx rest
    exact importSheetsV2_empty_sheet orc db idx rest
  · intro orc l1 l2 db db1 e h
    have h2 := importSheetsV2_error_append orc l1 l2 db 0 db1 e h
    unfold openExcelV2
    rw [h2]
  · intro orc hdrop hcreate hbegin hprep hins hcommit sheets db
    have h2 := importSheets_all_ok orc hdrop hcreate hbegin hprep hins hcommit
      sheets db 0 0
    unfold openExcelV1
    rcases hi : importSheets orc db 0 0 sheets with ⟨db1, r⟩
    rw [hi] at h2
    simp only [] at h2
    rw [h2]
    simp
  · intro orc hdrop hcreate hins sheets db
    have h2 := importSheetsV2_all_ok orc hdrop hcreate hins sheets db 0
    unfold openExcelV2
    rcases hi : importSheetsV2 orc db 0 sheets with ⟨db1, r⟩
    rw [hi] at h2
    simp only [] at h2
    rw [h2]

/-- C7 witness: an empty sheet is skipped by both variants; a failing
first sheet aborts before a pending one in both variants; a 2-sheet file
with one empty sheet reports (1, 2) in the paginated variant but plain 2
in the legacy one. -/
theorem import_skips_empty_sheets_fails_fast_reports_counts_witness :
    importSheets allOkOracle [] 0 0 (([] : SheetRows) :: [[["h"], ["a"]]]) =
      importSheets allOkOracle [] (0 + 1) 0 ([[["h"], ["a"]]]) ∧
    openExcelV1 failBOracle [] ([[["h"], ["b"]]] ++ [[["h2"], ["z"]]]) =
      (dbCreate (dbDrop [] ("sheet1")) ("sheet1"),
        .error (.insertRow 1)) ∧
    importSheetsV2 allOkOracle [] 0 (([] : SheetRows) :: [[["h"], ["a"]]]) =
      importSheetsV2 allOkOracle [] (0 + 1) ([[["h"], ["a"]]]) ∧
    openExcelV2 failBOracle [] ([[["h"], ["b"]]] ++ [[["h2"], ["z"]]]) =
      ([("sheet1", [])], .error .insertFailed) ∧
    (openExcelV1 allOkOracle [] ([[["h"], ["a"]], []])).2 =
      .ok (countNonempty ([[["h"], ["a"]], []]), ([[["h"], ["a"]], []] : List SheetRows).length) ∧
    (openExcelV2 allOkOracle [] ([[["h"], ["a"]], []])).2 =
      .ok (([[["h"], ["a"]], []] : List SheetRows).length) :=
  ⟨import_skips_empty_sheets_fails_fast_reports_counts.1 allOkOracle [] 0 0
      ([[["h"], ["a"]]]),
   import_skips_empty_sheets_fails_fast_reports_counts.2.1 failBOracle
      ([[["h"], ["b"]]]) ([[["h2"], ["z"]]]) []
      (dbCreate (dbDrop [] ("sheet1")) ("sheet1")) (.insertRow 1) rfl,
   import_skips_empty_sheets_fails_fast_reports_counts.2.2.1 allOkOracle [] 0
      ([[["h"], ["a"]]]),
   import_skips_empty_sheets_fails_fast_reports_counts.2.2.2.1 failBOracle
      ([[["h"], ["b"]]]) ([[["h2"], ["z"]]]) []
      ([("sheet1", [])]) (.insertFailed) rfl,
   import_skips_empty_sheets_fails_fast_reports_counts.2.2.2.2.1 allOkOracle
      (fun _ => rfl) (fun _ => rfl) rfl (fun _ => rfl) (fun _ _ => rfl) rfl
      ([[["h"], ["a"]], []]) [],
   import_skips_empty_sheets_fails_fast_reports_counts.2.2.2.2.2 allOkOracle
      (fun _ => rfl) (fun _ => rfl) (fun _ _ => rfl)
      ([[["h"], ["a"]], []]) []⟩

/-- C7 counterexample: on a 2-sheet file whose second sheet is empty, the
legacy variant's success status reports 2 sheets imported although only 1
sheet produced a table (`sheet2` does not exist) — the status does not
report "imported versus discovered". -/
theorem legacy_import_reports_discovered_as_imported :
    (openExcelV2 allOkOracle [] ([[["h"], ["a"]], []])).2 = Except.ok 2 ∧
    countNonempty ([[["h"], ["a"]], []]) = 1 ∧
    dbLookup (openExcelV2 allOkOracle [] ([[["h"], ["a"]], []])).1 ("sheet2") =
      none ∧
    (2 : Nat) ≠ 1 := by
  refine ⟨rfl, by decide, by decide, by decide⟩

/-- An engine whose query yields zero rows. -/
def emptyEngine : Engine := fun _ => .ok ⟨["c"], []⟩

/-- C6: an export whose query yields zero rows fails with the explicit
empty-result error, with no save dialog invoked and no cell written and
no file saved — in both the query-driven export and the legacy cached
`SaveResult`. -/
theorem empty_result_export_rejected_before_dialog :
    (∀ (a : App) (eng : Engine) (dialog : Except String String) (saveOk : Bool)
      (q : String) (er : EngineResult),
      a.dbOk = true → goTrim q ≠ "" → eng (goTrim q) = Except.ok er →
      (exportMaterializeRows er).length = 0 →
      ExportExcelBySQL a eng dialog saveOk q =
        ⟨a, "导出失败：SQL 查询结果为空！", [.engineQuery (goTrim q)]⟩ ∧
      Step.saveDialog ∉ (ExportExcelBySQL a eng dialog saveOk q).steps ∧
      (∀ p, Step.saveFile p ∉ (ExportExcelBySQL a eng dialog saveOk q).steps)) ∧
    (∀ (a : AppV2) (dialog : Except String String),
      a.resultData.length = 0 →
      SaveResult a dialog = ("暂无查询结果可保存", []) ∧
      Step.saveDialog ∉ (SaveResult a dialog).2) := by
  constructor
  · intro a eng dialog saveOk q er hdb hq heng hlen
    have he : ExportExcelBySQL a eng dialog saveOk q =
        ⟨a, "导出失败：SQL 查询结果为空！", [.engineQuery (goTrim q)]⟩ := by
      unfold ExportExcelBySQL
      rw [if_neg (by simp [hdb])]
      simp only []
      rw [if_neg hq, heng]
      simp only []
      rw [if_pos hlen]
    refine ⟨he, ?_, ?_⟩
    · rw [he]
      simp
    · intro p
      rw [he]
      simp
  · intro a dialog h
    have he : SaveResult a dialog = ("暂无查询结果可保存", []) := by
      unfold SaveResult
      rw [if_pos h]
    exact ⟨he, by rw [he]; simp⟩

/-- C6 witness: a concrete empty-result export and a concrete empty cached
save. -/
theorem empty_result_export_rejected_before_dialog_witness :
    (ExportExcelBySQL sampleApp emptyEngine (Except.ok ("out.xlsx")) true
        ("SELECT 1") =
      ⟨sampleApp, "导出失败：SQL 查询结果为空！",
        [.engineQuery (goTrim ("SELECT 1"))]⟩ ∧
      Step.saveDialog ∉ (ExportExcelBySQL sampleApp emptyEngine
        (Except.ok ("out.xlsx")) true ("SELECT 1")).steps ∧
      (∀ p, Step.saveFile p ∉ (ExportExcelBySQL sampleApp emptyEngine
        (Except.ok ("out.xlsx")) true ("SELECT 1")).steps)) ∧
    (SaveResult ⟨["c"], []⟩ (Except.ok ("out.csv")) = ("暂无查询结果可保存", []) ∧
      Step.saveDialog ∉ (SaveResult ⟨["c"], []⟩ (Except.ok ("out.csv"))).2) :=
  ⟨empty_result_export_rejected_before_dialog.1 sampleApp emptyEngine
      (Except.ok ("out.xlsx")) true ("SELECT 1") ⟨["c"], []⟩
      rfl (by decide) rfl rfl,
   empty_result_export_rejected_before_dialog.2 ⟨["c"], []⟩
      (Except.ok ("out.csv")) rfl⟩

/-- The export path's scan loop normalizes exactly like the paginated
path's (the two loops are textual copies). -/
theorem exportNormalize_eq_pageNormalize :
    ∀ v : GoValue, exportNormalize v = pageNormalize v := by
  intro v
  cases v <;> rfl

/-- C8: the export path and the paginated path materialize identical
column sequences (both take the engine's column list unchanged) and
identical row content in identical order, and every page served by the
paginated path is a contiguous slice of the export path's materialized
rows — export is the unpaged superset of every page. -/
theorem export_and_page_materialize_identically :
    (∀ er : EngineResult, exportMaterializeRows er = pageMaterializeRows er) ∧
    (∀ (a : App) (eng : Engine) (q : String) (p s : Nat),
      1 ≤ p → 1 ≤ s → a.dbOk = true → goTrim q ≠ "" →
      ∀ er : EngineResult, eng (goTrim q) = Except.ok er →
      (ExecuteSQLWithPage a eng q (p : Int) (s : Int)).outcome =
        PageOutcome.ok er.columns
          (pageSliceSpec (exportMaterializeRows er) p s)
          (exportMaterializeRows er).length
          ((totalPagesSpec (exportMaterializeRows er).length s : Nat) : Int)
          (p : Int) (s : Int)
          (pageMessage (exportMaterializeRows er).length (p : Int)
            ((totalPagesSpec (exportMaterializeRows er).length s : Nat) : Int))) := by
  have hrows : ∀ er : EngineResult,
      exportMaterializeRows er = pageMaterializeRows er := by
    intro er
    unfold exportMaterializeRows pageMaterializeRows
    unfold materializeRowExport materializeRowPage
    simp [exportNormalize_eq_pageNormalize]
  refine ⟨hrows, ?_⟩
  intro a eng q p s hp hs hdb hq er heng
  rw [hrows er]
  rw [executeSQLWithPage_ok a eng q p s hp hs hdb hq er heng]

/-- C8 witness: a concrete engine result materializes identically on both
paths, and page 2 (size 2) of the sample query is the corresponding slice
of the export materialization. -/
theorem export_and_page_materialize_identically_witness :
    exportMaterializeRows sampleResult = pageMaterializeRows sampleResult ∧
    (ExecuteSQLWithPage sampleApp sampleEngine ("SELECT * FROM sheet1")
        ((2 : Nat) : Int) ((2 : Nat) : Int)).outcome =
      PageOutcome.ok sampleResult.columns
        (pageSliceSpec (exportMaterializeRows sampleResult) 2 2)
        (exportMaterializeRows sampleResult).length
        ((totalPagesSpec (exportMaterializeRows sampleResult).length 2 : Nat) : Int)
        ((2 : Nat) : Int) ((2 : Nat) : Int)
        (pageMessage (exportMaterializeRows sampleResult).length ((2 : Nat) : Int)
          ((totalPagesSpec (exportMaterializeRows sampleResult).length 2 : Nat) : Int)) :=
  ⟨export_and_page_materialize_identically.1 sampleResult,
   export_and_page_materialize_identically.2 sampleApp sampleEngine
      ("SELECT * FROM sheet1") 2 2 (by decide) (by decide) rfl (by decide)
      sampleResult rfl⟩

/-! ## Cell-layout lemmas for the export sink -/

theorem headerWrites_getElem (cols : List String) :
    ∀ k i : Nat, (headerWrites k cols)[i]? =
      (cols[i]?).map (fun cn => (cellAddr (k + i) 1, GoValue.str cn)) := by
  induction cols with
  | nil =>
    intro k i
    simp [headerWrites]
  | cons c rest ih =>
    intro k i
    cases i with
    | zero =>
      simp [headerWrites]
    | succ j =>
      have harg : k + 1 + j = k + (j + 1) := by omega
      simp only [headerWrites, List.getElem?_cons_succ]
      rw [ih (k + 1) j, harg]

theorem rowWrites_getElem (rowIdx : Nat) (rowData : Row) (cols : List String) :
    ∀ k i : Nat, (rowWrites rowIdx rowData k cols)[i]? =
      (cols[i]?).map (fun cn => (cellAddr (k + i) (rowIdx + 2), mapGet rowData cn)) := by
  induction cols with
  | nil =>
    intro k i
    simp [rowWrites]
  | cons c rest ih =>
    intro k i
    cases i with
    | zero =>
      simp [rowWrites]
    | succ j =>
      have harg : k + 1 + j = k + (j + 1) := by omega
      simp only [rowWrites, List.getElem?_cons_succ]
      rw [ih (k + 1) j, harg]

theorem rowWrites_length (rowIdx : Nat) (rowData : Row) (cols : List String) :
    ∀ k : Nat, (rowWrites rowIdx rowData k cols).length = cols.length := by
  induction cols with
  | nil => intro k; rfl
  | cons c rest ih =>
    intro k
    simp only [rowWrites, List.length_cons, ih (k + 1)]

theorem dataWrites_getElem (cols : List String) :
    ∀ (l : List Row) (k r i : Nat) (row : Row), i < cols.length →
      l[r]? = some row →
      (dataWrites cols k l)[r * cols.length + i]? =
        (cols[i]?).map (fun cn => (cellAddr i (k + r + 2), mapGet row cn)) := by
  intro l
  induction l with
  | nil =>
    intro k r i row hi hr
    simp at hr
  | cons row0 rest ih =>
    intro k r i row hi hr
    cases r with
    | zero =>
      have hrow : row0 = row := by simpa using hr
      subst hrow
      have hz : 0 * cols.length + i = i := by omega
      simp only [dataWrites]
      rw [hz, List.getElem?_append,
        if_pos (by rw [rowWrites_length]; exact hi),
        rowWrites_getElem k row0 cols 0 i]
      have h1 : 0 + i = i := by omega
      have h2 : k + 0 + 2 = k + 2 := by omega
      rw [h1, h2]
    | succ r2 =>
      have hmul : (r2 + 1) * cols.length = r2 * cols.length + cols.length :=
        Nat.succ_mul _ _
      simp only [dataWrites]
      rw [List.getElem?_append,
        if_neg (by rw [rowWrites_length]; omega)]
      have hidx : (r2 + 1) * cols.length + i -
          (rowWrites k row0 0 cols).length = r2 * cols.length + i := by
        rw [rowWrites_length]
        omega
      rw [hidx, ih (k + 1) r2 i row hi (by simpa using hr)]
      have harg : k + 1 + r2 + 2 = k + (r2 + 1) + 2 := by omega
      rw [harg]

/-- C9: on a successful export, the spreadsheet sink receives exactly —
and in this order — one engine query, one save dialog, the header cells,
the data cells, and one file save; the header value of 0-based column `i`
goes to the cell whose column letter is derived from `i` in row 1, and
the value of data row `r`, column `i`, goes to that column letter in row
`r + 2`, preserving the query's column order and row order. -/
theorem export_writes_header_then_rows_cell_addressed :
    (∀ (a : App) (eng : Engine) (q path : String) (er : EngineResult),
      a.dbOk = true → goTrim q ≠ "" → eng (goTrim q) = Except.ok er →
      (exportMaterializeRows er).length ≠ 0 → path ≠ "" →
      (ExportExcelBySQL a eng (Except.ok path) true q).steps =
        [Step.engineQuery (goTrim q), Step.saveDialog] ++
        ((headerWrites 0 er.columns ++
          dataWrites er.columns 0 (exportMaterializeRows er)).map
            (fun w => Step.setCell w.1 w.2)) ++
        [Step.saveFile path]) ∧
    (∀ (cols : List String) (i : Nat),
      (headerWrites 0 cols)[i]? =
        (cols[i]?).map (fun cn => (cellAddr i 1, GoValue.str cn))) ∧
    (∀ (cols : List String) (l : List Row) (r i : Nat) (row : Row),
      i < cols.length → l[r]? = some row →
      (dataWrites cols 0 l)[r * cols.length + i]? =
        (cols[i]?).map (fun cn => (cellAddr i (r + 2), mapGet row cn))) := by
  refine ⟨?_, ?_, ?_⟩
  · intro a eng q path er hdb hq heng hlen hpath
    unfold ExportExcelBySQL
    rw [if_neg (by simp [hdb])]
    simp only []
    rw [if_neg hq, heng]
    simp only []
    rw [if_neg hlen]
    try simp only []
    rw [if_neg hpath]
    try simp only []
    rw [if_neg (by simp)]
  · intro cols i
    have h := headerWrites_getElem cols 0 i
    have hz : (0 : Nat) + i = i := by omega
    rw [hz] at h
    exact h
  · intro cols l r i row hi hr
    have h := dataWrites_getElem cols l 0 r i row hi hr
    have hz : (0 : Nat) + r + 2 = r + 2 := by omega
    rw [hz] at h
    exact h

/-- C9 witness: exporting the 3-row sample query writes `column1` at A1
and the three data values at A2, A3, A4, in order, then saves. -/
theorem export_writes_header_then_rows_cell_addressed_witness :
    (ExportExcelBySQL sampleApp sampleEngine (Except.ok ("out.xlsx")) true
        ("SELECT * FROM sheet1")).steps =
      [Step.engineQuery (goTrim ("SELECT * FROM sheet1")), Step.saveDialog] ++
      ((headerWrites 0 sampleResult.columns ++
        dataWrites sampleResult.columns 0 (exportMaterializeRows sampleResult)).map
          (fun w => Step.setCell w.1 w.2)) ++
      [Step.saveFile ("out.xlsx")] ∧
    (headerWrites 0 sampleResult.columns)[0]? =
      ((sampleResult.columns)[0]?).map
        (fun cn => (cellAddr 0 1, GoValue.str cn)) ∧
    (dataWrites sampleResult.columns 0 (exportMaterializeRows sampleResult))[
        2 * sampleResult.columns.length + 0]? =
      ((sampleResult.columns)[0]?).map
        (fun cn => (cellAddr 0 (2 + 2),
          mapGet ([("column1", GoValue.str "")]) cn)) :=
  ⟨export_writes_header_then_rows_cell_addressed.1 sampleApp sampleEngine
      ("SELECT * FROM sheet1") ("out.xlsx") sampleResult rfl (by decide) rfl
      (by decide) (by decide),
   export_writes_header_then_rows_cell_addressed.2.1 sampleResult.columns 0,
   export_writes_header_then_rows_cell_addressed.2.2 sampleResult.columns
      (exportMaterializeRows sampleResult) 2 0
      ([("column1", GoValue.str "")]) (by decide) (by decide)⟩

end ExcelDB
